import Mathlib

set_option maxHeartbeats 1000000
set_option maxRecDepth 100000

/-!
Shallow embedding of `brewberry/actors.py` (the "Flying Circus" gevent-based
actor library) and of the scenarios exercised by its tests.

The embedding has three parts:

* a single-actor model (`ActorState`, `addressCall`, `loopStep`) translating
  the `address` closure and the `actor_process` loop of `spawn`
  (actors.py lines 76-161);
* a multi-process world (`LWorld`) translating the gevent greenlet layer that
  `Link` / `TrapLink` / `kill` rely on: `proc.kill`, `proc.link_exception`
  and the callbacks the Link and TrapLink branches register
  (actors.py lines 131-138, 150-151, 263-271);
* a registry model (`RegWorld`) translating `register` / `whereis`
  (actors.py lines 274-303).

Machine-level concurrency (greenlet scheduling, the 0.01 s retry delay) is
not modelled; callback cascades are run to completion with explicit fuel.
-/

/-- `MAX_QUEUE_SIZE = 1024` (actors.py line 30): capacity of each mailbox. -/
def MAX_QUEUE_SIZE : Nat := 1024

/-- The five interned control tokens (actors.py lines 33-37). -/
inductive Token
  | KillerJoke
  | Monitor
  | Link
  | TrapLink
  | ActorInfo
deriving DecidableEq, Repr

/-- Ordinary (non-token) values that may travel in a message. -/
inductive Datum
  | addr (a : Nat)
  | qref (q : Nat)
  | nat (n : Nat)
  | str (s : String)
deriving DecidableEq, Repr

/-- A positional argument of an `address(...)` call: a control token or data. -/
inductive Arg
  | token (t : Token)
  | datum (d : Datum)
deriving DecidableEq, Repr

/-- Keyword arguments of a call.  `monitor` models `kwargs['monitor']`
(actors.py line 129); other keywords are opaque data. -/
structure Kw where
  monitor : Option Nat := none
  data : List (String × Datum) := []
deriving DecidableEq, Repr

def Kw.empty : Kw := {}

/-- A mailbox entry `(retries, args, kwargs)` (actors.py lines 96, 153). -/
abbrev Msg := Nat × List Arg × Kw

/-- Exceptions that can become an actor's terminal exception.
`Killed` and `KilledByLink` are the classes of actors.py lines 42-53;
`userExc n` stands for any exception raised by behaviour code. -/
inductive Exc
  | Killed
  | KilledByLink
  | userExc (n : Nat)
deriving DecidableEq, Repr

/-- `KilledByLink` is declared as a subclass of `Killed` (actors.py line 49),
so both are of kind `Killed`. -/
def Exc.isKilled : Exc → Bool
  | Exc.Killed => true
  | Exc.KilledByLink => true
  | Exc.userExc _ => false

/-- Status of the greenlet running an actor: `running`, finished normally
(behaviour returned a falsy value), or dead with an exception. -/
inductive ProcStatus
  | running
  | deadNormal
  | deadExc (e : Exc)
deriving DecidableEq, Repr

/-- `proc.ready()`: true once the greenlet is dead (for any reason). -/
def ProcStatus.ready : ProcStatus → Bool
  | ProcStatus.running => false
  | _ => true

/-- `proc.successful()`: dead and without exception. -/
def ProcStatus.successful : ProcStatus → Bool
  | ProcStatus.deadNormal => true
  | _ => false

/-- `proc.exception`: the terminal exception, if any. -/
def ProcStatus.exception : ProcStatus → Option Exc
  | ProcStatus.deadExc e => some e
  | _ => none

/-- The `ActorInfoTuple` namedtuple (actors.py line 39). -/
structure ActorInfoTuple where
  links : List Unit
  mailbox_size : Nat
  monitored_by : List Unit
  monitors : List Unit
  running : Bool
  successful : Bool
  exception : Option Exc
  exc_info : Option Exc
deriving DecidableEq, Repr

/-- Record of a Link / TrapLink registration made by the `address` closure
(the actual callbacks are modelled in `LWorld` below). -/
inductive CtrlEvent
  | linkReg
  | trapLinkReg
deriving DecidableEq, Repr

/-- The state owned by one spawned actor: the `func` argument captured by the
`address` closure (line 130 uses it for monitors), the loop-local `next_func`
(line 95), the mailbox (line 92), the greenlet status, the registered monitor
callbacks (line 128-130), a record of link registrations, the values the
behaviour wrote to external queues, and the messages dropped by the retry
limit (line 109). -/
structure ActorState (β : Type) where
  spawnFunc : β
  nextFunc : β
  mailbox : List Msg
  status : ProcStatus
  monitors : List Nat
  ctrl : List CtrlEvent
  outputs : List String
  droppedLog : List Msg
deriving DecidableEq, Repr

variable {β : Type}

/-- `proc.kill(e)` on this actor's greenlet: a running greenlet dies with the
exception; killing a dead greenlet is a no-op. -/
def procKill (st : ActorState β) (e : Exc) : ActorState β :=
  match st.status with
  | ProcStatus.running => { st with status := ProcStatus.deadExc e }
  | _ => st

/-- The snapshot built by the `ActorInfo` branch (actors.py lines 139-149):
`running = not proc.ready()`, `successful = proc.successful()`, etc. -/
def mkInfo (st : ActorState β) : ActorInfoTuple :=
  { links := []
    mailbox_size := st.mailbox.length
    monitored_by := []
    monitors := []
    running := !st.status.ready
    successful := st.status.successful
    exception := st.status.exception
    exc_info := st.status.exception }

/-- Result of one `address(*args, **kwargs)` call: the address itself, an
info snapshot, or an exception raised to the caller (`UndeliveredMessage`
from a full mailbox, line 154-155; `KeyError` from a Monitor call without a
`monitor` keyword, line 129). -/
inductive AddrResult
  | retAddress
  | retInfo (info : ActorInfoTuple)
  | raiseUndeliveredMessage
  | raiseKeyError
deriving DecidableEq, Repr

/-- The `address` closure (actors.py lines 117-156), as a function of the
actor's state.  The `if/elif` chain scans `args` for control tokens in the
order Monitor, Link, TrapLink, ActorInfo, KillerJoke; otherwise the message
is appended to the mailbox with `put_nowait`, raising `UndeliveredMessage`
when the queue is full.  The Link/TrapLink branches register callbacks on
the calling and target greenlets; here the registration is recorded in
`ctrl` and its semantics is modelled by `LWorld` below. -/
def addressCall (st : ActorState β) (args : List Arg) (kw : Kw) :
    AddrResult × ActorState β :=
  if Arg.token Token.Monitor ∈ args then
    match kw.monitor with
    | some mon => (AddrResult.retAddress, { st with monitors := st.monitors ++ [mon] })
    | none => (AddrResult.raiseKeyError, st)
  else if Arg.token Token.Link ∈ args then
    (AddrResult.retAddress, { st with ctrl := st.ctrl ++ [CtrlEvent.linkReg] })
  else if Arg.token Token.TrapLink ∈ args then
    (AddrResult.retAddress, { st with ctrl := st.ctrl ++ [CtrlEvent.trapLinkReg] })
  else if Arg.token Token.ActorInfo ∈ args then
    (AddrResult.retInfo (mkInfo st), st)
  else if Arg.token Token.KillerJoke ∈ args then
    (AddrResult.retAddress, procKill st Exc.Killed)
  else
    if st.mailbox.length < MAX_QUEUE_SIZE then
      (AddrResult.retAddress, { st with mailbox := st.mailbox ++ [(0, args, kw)] })
    else
      (AddrResult.raiseUndeliveredMessage, st)

/-- `kill(actor)` (actors.py lines 263-271): send the Killer Joke. -/
def kill (st : ActorState β) : AddrResult × ActorState β :=
  addressCall st [Arg.token Token.KillerJoke] Kw.empty

/-- Outcome of invoking a behaviour `next_func(*args, **kwargs)`
(actors.py line 101): the next behaviour, a falsy value (normal stop),
a `TypeError` (argument-shape mismatch), or any other exception. -/
inductive CallRes (β : Type)
  | next (b : β)
  | falsy
  | typeErr
  | raiseE (e : Exc)
deriving DecidableEq, Repr

/-- The full effect of one behaviour invocation: its result, the strings it
wrote to external queues, and the messages it sent to the actor's own
address (e.g. `self(queue, i - 1)` in the ping/pong test). -/
structure CallOut (β : Type) where
  res : CallRes β
  outputs : List String
  selfSends : List (List Arg × Kw)
deriving DecidableEq, Repr

/-- Semantics of a family of behaviour functions: the
`with_self_address` flag (actors.py lines 63-73, 97) and the invocation map. -/
structure BehaviorSem (β : Type) where
  withSelf : β → Bool
  call : β → List Arg → Kw → CallOut β

/-- `mailbox.put_nowait m`: append if the queue has room, otherwise the put
raises `Full` and the message is lost (the retry re-enqueue of line 106 runs
in a detached greenlet, so a `Full` there is invisible to the actor). -/
def enqueueOne (mb : List Msg) (m : Msg) : List Msg :=
  if mb.length < MAX_QUEUE_SIZE then mb ++ [m] else mb

/-- Enqueue, in order, the sends a behaviour made to its own address while
it ran (each is a plain send `(0, args, kwargs)`, line 153). -/
def enqueueSends (mb : List Msg) : List (List Arg × Kw) → List Msg
  | [] => mb
  | (a, k) :: rest => enqueueSends (enqueueOne mb (0, a, k)) rest

/-- One iteration of the `actor_process` loop (actors.py lines 94-112) on
the oldest mailbox entry `(retries, args, kwargs)`:

* if `next_func` is self-aware, prepend the actor's own address to `args`
  (line 97-98) — note the re-binding of the local `args`;
* invoke the behaviour (line 101);
* on `TypeError`: if `retries < 8` re-enqueue `(retries+1, args, kwargs)`
  (line 106 — with the re-bound `args`), else log and drop (line 109); in
  both cases `next_func` is unchanged and the loop continues;
* on any other exception the greenlet dies with it;
* on a falsy result the loop breaks (normal termination, line 111-112);
* otherwise `next_func` becomes the returned behaviour.

A dead actor, or one with an empty mailbox, takes no step. -/
def loopStep (sem : BehaviorSem β) (selfAddr : Arg) (st : ActorState β) :
    ActorState β :=
  match st.status, st.mailbox with
  | ProcStatus.running, (retries, args0, kw) :: rest =>
    let args := if sem.withSelf st.nextFunc then selfAddr :: args0 else args0
    let out := sem.call st.nextFunc args kw
    let st1 := { st with mailbox := enqueueSends rest out.selfSends
                         outputs := st.outputs ++ out.outputs }
    match out.res with
    | CallRes.typeErr =>
      if retries < 8 then
        { st1 with mailbox := enqueueOne st1.mailbox (retries + 1, args, kw) }
      else
        { st1 with droppedLog := st1.droppedLog ++ [(retries, args, kw)] }
    | CallRes.raiseE e => { st1 with status := ProcStatus.deadExc e }
    | CallRes.falsy => { st1 with status := ProcStatus.deadNormal }
    | CallRes.next b => { st1 with nextFunc := b }
  | _, _ => st

/-- Iterate the loop a given number of steps. -/
def runLoop (sem : BehaviorSem β) (selfAddr : Arg) : Nat → ActorState β → ActorState β
  | 0, st => st
  | fuel + 1, st => runLoop sem selfAddr fuel (loopStep sem selfAddr st)

/-- What a monitor callback observes when the actor dies.  The Monitor
branch registers `proc.link(lambda dead_proc: mon(func, dead_proc.exception))`
(actors.py line 130): the first component is the `func` with which the actor
was spawned — the closure captures `spawn`'s parameter, not the loop-local
`next_func`. -/
def monitorObservation (st : ActorState β) : Option (β × Option Exc) :=
  match st.status with
  | ProcStatus.running => none
  | ProcStatus.deadNormal => some (st.spawnFunc, none)
  | ProcStatus.deadExc e => some (st.spawnFunc, some e)

/-- `spawn(func, *args, **kwargs)` (actors.py lines 76-161): a fresh bounded
mailbox, the loop greenlet started on `func`, then `address(*args, **kwargs)`
delivers the first message. -/
def spawnState (f : β) (args : List Arg) (kw : Kw) : ActorState β :=
  (addressCall
    { spawnFunc := f, nextFunc := f, mailbox := [], status := ProcStatus.running,
      monitors := [], ctrl := [], outputs := [], droppedLog := [] }
    args kw).2

/-- The two behaviours of `tests/test_actors_state_machine.py` (lines 6-19). -/
inductive PP
  | ping
  | pong
deriving DecidableEq, Repr

/-- The word each behaviour writes (`'ping %d' % i` resp. `'pong %d' % i`). -/
def PP.word : PP → String
  | PP.ping => "ping"
  | PP.pong => "pong"

/-- `ping` returns `pong` and vice versa. -/
def PP.flip : PP → PP
  | PP.ping => PP.pong
  | PP.pong => PP.ping

/-- Invocation of `ping` / `pong` (test file lines 6-19): with arguments
`(self, queue, i)` it puts `'<word> i'` on the shared queue, terminates
normally when `i == 0`, and otherwise sends `(queue, i - 1)` to itself and
returns the other behaviour.  Any other argument shape is a `TypeError`. -/
def ppCall (b : PP) (args : List Arg) (kw : Kw) : CallOut PP :=
  match args, kw with
  | [Arg.datum (Datum.addr _), Arg.datum (Datum.qref q), Arg.datum (Datum.nat i)],
    ⟨none, []⟩ =>
    if i = 0 then
      { res := CallRes.falsy
        outputs := [b.word ++ " " ++ toString i]
        selfSends := [] }
    else
      { res := CallRes.next b.flip
        outputs := [b.word ++ " " ++ toString i]
        selfSends := [([Arg.datum (Datum.qref q), Arg.datum (Datum.nat (i - 1))], Kw.empty)] }
  | _, _ => { res := CallRes.typeErr, outputs := [], selfSends := [] }

/-- Both `ping` and `pong` are decorated `@with_self_address`. -/
def ppSem : BehaviorSem PP :=
  { withSelf := fun _ => true, call := ppCall }

/-- `spawn(ping, response, 5)` of `test_state_machine` (line 32):
queue 0 stands for the `response` queue. -/
def pingPongInit : ActorState PP :=
  spawnState PP.ping [Arg.datum (Datum.qref 0), Arg.datum (Datum.nat 5)] Kw.empty

/-- The state-machine actor run to quiescence (address id 0 for itself). -/
def pingPongFinal : ActorState PP :=
  runLoop ppSem (Arg.datum (Datum.addr 0)) 12 pingPongInit

/-- A callback registered with `proc.link_exception` by the Link / TrapLink
branches (actors.py lines 131-138).  `killOther t` is
`lambda p: t_proc.kill(KilledByLink)`; `trapTo t s` is
`lambda dead_proc: t_address(trap_exit=(s_address, dead_proc.exception))`. -/
inductive LinkCb
  | killOther (target : Nat)
  | trapTo (target : Nat) (source : Nat)
deriving DecidableEq, Repr

/-- The greenlet layer: every actor id has a status, the list of
`link_exception` callbacks registered on its greenlet, and its mailbox —
here only the `trap_exit=(address, exception)` messages matter, modelled as
`(source id, exception)` pairs. -/
structure LWorld where
  status : Nat → ProcStatus
  linkExc : Nat → List LinkCb
  mailbox : Nat → List (Nat × Exc)

/-- Update one actor's status. -/
def setStatus (w : LWorld) (p : Nat) (s : ProcStatus) : LWorld :=
  { w with status := fun x => if x = p then s else w.status x }

/-- Append a `link_exception` callback on actor `p`'s greenlet. -/
def addCb (w : LWorld) (p : Nat) (cb : LinkCb) : LWorld :=
  { w with linkExc := fun x => if x = p then w.linkExc x ++ [cb] else w.linkExc x }

/-- The Link branch (actors.py lines 131-134), caller `c` on the address of
`a`: `me.link_exception(lambda p: proc.kill(KilledByLink))` then
`proc.link_exception(lambda p: me.kill(KilledByLink))`.
`spawn_link` (lines 176-183) installs exactly this before the first
message, with `c` the spawning actor and `a` the child. -/
def establishLink (w : LWorld) (c a : Nat) : LWorld :=
  addCb (addCb w c (LinkCb.killOther a)) a (LinkCb.killOther c)

/-- The TrapLink branch (actors.py lines 135-138), caller `c` on the address
of `a`: `me.link_exception(lambda dead_proc: proc.kill(KilledByLink))` then
`proc.link_exception(lambda dead_proc: me._address(trap_exit=(address,
dead_proc.exception)))`.  `spawn_trap_link` (lines 186-197) installs exactly
this. -/
def establishTrapLink (w : LWorld) (c a : Nat) : LWorld :=
  addCb (addCb w c (LinkCb.killOther a)) a (LinkCb.trapTo c a)

/-- Run a worklist of fired callbacks, each paired with the exception of the
greenlet whose death fired it.  `killOther t` kills a running `t` with
`KilledByLink`, which is itself an abnormal death and fires `t`'s own
`link_exception` callbacks; killing a dead greenlet is a no-op.
`trapTo t s` performs `t_address(trap_exit=(s_address, e))` — a plain send:
`put_nowait` appends to `t`'s mailbox, or silently loses the message when
the mailbox is full (the `UndeliveredMessage` surfaces only inside the
gevent hub running the callback). -/
def runCbs : Nat → LWorld → List (Exc × LinkCb) → LWorld
  | 0, w, _ => w
  | _ + 1, w, [] => w
  | fuel + 1, w, (_, LinkCb.killOther t) :: rest =>
    match w.status t with
    | ProcStatus.running =>
      runCbs fuel (setStatus w t (ProcStatus.deadExc Exc.KilledByLink))
        (rest ++ (w.linkExc t).map (fun cb => (Exc.KilledByLink, cb)))
    | _ => runCbs fuel w rest
  | fuel + 1, w, (e, LinkCb.trapTo t s) :: rest =>
    if (w.mailbox t).length < MAX_QUEUE_SIZE then
      runCbs fuel
        { w with mailbox := fun x => if x = t then w.mailbox x ++ [(s, e)] else w.mailbox x }
        rest
    else
      runCbs fuel w rest

/-- Actor `p`'s greenlet terminates: normally (`res = none`; the
`link_exception` callbacks do not fire) or with exception `e`
(`res = some e`; every `link_exception` callback registered on `p` fires,
and the cascade is run with the given fuel).  Termination of an
already-dead greenlet changes nothing. -/
def terminate (fuel : Nat) (w : LWorld) (p : Nat) (res : Option Exc) : LWorld :=
  match w.status p with
  | ProcStatus.running =>
    match res with
    | none => setStatus w p ProcStatus.deadNormal
    | some e =>
      runCbs fuel (setStatus w p (ProcStatus.deadExc e))
        ((w.linkExc p).map (fun cb => (e, cb)))
  | _ => w

/-- The registry (actors.py lines 274-312): the `_registry` dict plus the
`remove_when_done` monitors `register` installs — `(p, name)` means actor
`p`'s death deletes `name`. -/
structure RegWorld where
  registry : List (String × Nat)
  monRemovals : List (Nat × String)
deriving DecidableEq, Repr

/-- `register(name, addr)` (actors.py lines 277-294): raise `KeyError` if
`name` is already bound (leaving everything untouched); otherwise install
the `remove_when_done` monitor on `addr` and bind `name` to `addr`. -/
def register (w : RegWorld) (name : String) (addr : Nat) : Except String RegWorld :=
  if w.registry.any (fun p => p.1 == name) then
    Except.error "already registered"
  else
    Except.ok { registry := w.registry ++ [(name, addr)]
                monRemovals := w.monRemovals ++ [(addr, name)] }

/-- `whereis(name)` (actors.py lines 297-303): `_registry.get(name, None)`. -/
def whereis (w : RegWorld) (name : String) : Option Nat :=
  (w.registry.find? (fun p => p.1 == name)).map (fun p => p.2)

/-- Actor `p` terminates: each `remove_when_done` monitor installed for `p`
fires and deletes its name from the registry (actors.py lines 284-288). -/
def regTerminate (w : RegWorld) (p : Nat) : RegWorld :=
  { w with registry :=
      w.registry.filter (fun nv => !(w.monRemovals.any (fun m => m.1 == p && m.2 == nv.1))) }

/-- The six dispatch branches of the `address` closure. -/
inductive Branch
  | monitorB
  | linkB
  | trapLinkB
  | actorInfoB
  | killerJokeB
  | sendB
deriving DecidableEq, Repr

/-- Modelled from the spec's words (§4.2): the branch selected for a call —
at most one recognized token is handled, chosen by the fixed precedence
Monitor, Link, TrapLink, ActorInfo, KillerJoke, else plain send. -/
def selectBranch (args : List Arg) : Branch :=
  if Arg.token Token.Monitor ∈ args then Branch.monitorB
  else if Arg.token Token.Link ∈ args then Branch.linkB
  else if Arg.token Token.TrapLink ∈ args then Branch.trapLinkB
  else if Arg.token Token.ActorInfo ∈ args then Branch.actorInfoB
  else if Arg.token Token.KillerJoke ∈ args then Branch.killerJokeB
  else Branch.sendB

/-- Modelled from the spec's words (§4.2): what each selected branch does
and returns.  To be compared with `addressCall`, which is translated from
the source's `if/elif` chain. -/
def dispatchSpec (st : ActorState β) (args : List Arg) (kw : Kw) :
    AddrResult × ActorState β :=
  match selectBranch args with
  | Branch.monitorB =>
    match kw.monitor with
    | some mon => (AddrResult.retAddress, { st with monitors := st.monitors ++ [mon] })
    | none => (AddrResult.raiseKeyError, st)
  | Branch.linkB =>
    (AddrResult.retAddress, { st with ctrl := st.ctrl ++ [CtrlEvent.linkReg] })
  | Branch.trapLinkB =>
    (AddrResult.retAddress, { st with ctrl := st.ctrl ++ [CtrlEvent.trapLinkReg] })
  | Branch.actorInfoB =>
    (AddrResult.retInfo (mkInfo st), st)
  | Branch.killerJokeB =>
    (AddrResult.retAddress, procKill st Exc.Killed)
  | Branch.sendB =>
    if st.mailbox.length < MAX_QUEUE_SIZE then
      (AddrResult.retAddress, { st with mailbox := st.mailbox ++ [(0, args, kw)] })
    else
      (AddrResult.raiseUndeliveredMessage, st)

/-- A degenerate behaviour family: one self-aware behaviour whose every
invocation raises `TypeError` (an argument-shape mismatch). -/
inductive OneB
  | theB
deriving DecidableEq, Repr

def mismatchSem : BehaviorSem OneB :=
  { withSelf := fun _ => true
    call := fun _ _ _ => { res := CallRes.typeErr, outputs := [], selfSends := [] } }

/-- A running actor on `mismatchSem` holding one fresh message `(7)`. -/
def mismatchState : ActorState OneB :=
  { spawnFunc := OneB.theB, nextFunc := OneB.theB
    mailbox := [(0, [Arg.datum (Datum.nat 7)], Kw.empty)]
    status := ProcStatus.running, monitors := [], ctrl := []
    outputs := [], droppedLog := [] }

/-- A terminated actor whose (undrained) mailbox is full. -/
def deadFullState : ActorState PP :=
  { spawnFunc := PP.ping, nextFunc := PP.ping
    mailbox := List.replicate MAX_QUEUE_SIZE (0, [Arg.datum (Datum.nat 0)], Kw.empty)
    status := ProcStatus.deadNormal, monitors := [], ctrl := []
    outputs := [], droppedLog := [] }

/-- A terminated actor with an empty mailbox. -/
def deadEmptyState : ActorState PP :=
  { spawnFunc := PP.ping, nextFunc := PP.ping
    mailbox := [], status := ProcStatus.deadExc (Exc.userExc 1)
    monitors := [], ctrl := [], outputs := [], droppedLog := [] }

/-- A running actor with three data messages queued (used as witness input). -/
def runningState : ActorState PP :=
  { spawnFunc := PP.ping, nextFunc := PP.pong
    mailbox := [(0, [Arg.datum (Datum.nat 1)], Kw.empty),
                (0, [Arg.datum (Datum.nat 2)], Kw.empty),
                (0, [Arg.datum (Datum.nat 3)], Kw.empty)]
    status := ProcStatus.running, monitors := [5], ctrl := []
    outputs := ["x"], droppedLog := [] }

/-- Two running greenlets 0 and 1 with no links and empty mailboxes. -/
def twoProcWorld : LWorld :=
  { status := fun _ => ProcStatus.running
    linkExc := fun _ => []
    mailbox := fun _ => [] }

/-- Like `twoProcWorld`, but actor 1's mailbox is already full. -/
def fullMailboxWorld : LWorld :=
  { status := fun _ => ProcStatus.running
    linkExc := fun _ => []
    mailbox := fun x => if x = 1 then List.replicate MAX_QUEUE_SIZE (9, Exc.Killed) else [] }

/-- Caller 1 trap-links actor 0 while 1's mailbox is full. -/
def c2FullWorld : LWorld := establishTrapLink fullMailboxWorld 1 0

/-- A registry world with one binding `"sensor" → 4` whose owner monitor is
installed, plus an unrelated monitor. -/
def regWorld0 : RegWorld :=
  { registry := [("sensor", 4)], monRemovals := [(4, "sensor")] }

theorem setStatus_status_self (w : LWorld) (p : Nat) (s : ProcStatus) :
    (setStatus w p s).status p = s := by
  simp [setStatus]

theorem setStatus_status_ne (w : LWorld) (p : Nat) (s : ProcStatus) (q : Nat)
    (h : q ≠ p) : (setStatus w p s).status q = w.status q := by
  simp [setStatus, h]

theorem setStatus_linkExc (w : LWorld) (p : Nat) (s : ProcStatus) :
    (setStatus w p s).linkExc = w.linkExc := rfl

theorem setStatus_mailbox (w : LWorld) (p : Nat) (s : ProcStatus) :
    (setStatus w p s).mailbox = w.mailbox := rfl

theorem addCb_status (w : LWorld) (p : Nat) (cb : LinkCb) :
    (addCb w p cb).status = w.status := rfl

theorem addCb_mailbox (w : LWorld) (p : Nat) (cb : LinkCb) :
    (addCb w p cb).mailbox = w.mailbox := rfl

theorem addCb_linkExc_self (w : LWorld) (p : Nat) (cb : LinkCb) :
    (addCb w p cb).linkExc p = w.linkExc p ++ [cb] := by
  simp [addCb]

theorem addCb_linkExc_ne (w : LWorld) (p : Nat) (cb : LinkCb) (q : Nat)
    (h : q ≠ p) : (addCb w p cb).linkExc q = w.linkExc q := by
  simp [addCb, h]

/-- A dead actor's loop takes no step (the `for ... in mailbox` greenlet is
gone). -/
theorem loopStep_dead (sem : BehaviorSem β) (a : Arg) (st : ActorState β)
    (h : st.status ≠ ProcStatus.running) : loopStep sem a st = st := by
  obtain ⟨sf, nf, mb, stt, mons, ctl, outs, dl⟩ := st
  cases stt with
  | running => exact absurd rfl h
  | deadNormal => cases mb <;> rfl
  | deadExc e => cases mb <;> rfl

/-- A dead actor's loop takes no step, however long we wait. -/
theorem runLoop_dead (sem : BehaviorSem β) (a : Arg) (n : Nat) (st : ActorState β)
    (h : st.status ≠ ProcStatus.running) : runLoop sem a n st = st := by
  induction n with
  | zero => rfl
  | succ k ih => rw [runLoop, loopStep_dead sem a st h, ih]

/-- The loop never changes the `func` captured at spawn time. -/
theorem loopStep_spawnFunc (sem : BehaviorSem β) (a : Arg) (st : ActorState β) :
    (loopStep sem a st).spawnFunc = st.spawnFunc := by
  obtain ⟨sf, nf, mb, stt, mons, ctl, outs, dl⟩ := st
  cases stt <;> cases mb <;> try rfl
  case running.cons m rest =>
    obtain ⟨retries, args0, kw⟩ := m
    simp only [loopStep]
    split <;> first | rfl | (split <;> rfl)

/-- `runLoop` never changes the `func` captured at spawn time. -/
theorem runLoop_spawnFunc (sem : BehaviorSem β) (a : Arg) (n : Nat) (st : ActorState β) :
    (runLoop sem a n st).spawnFunc = st.spawnFunc := by
  induction n generalizing st with
  | zero => rfl
  | succ k ih => rw [runLoop, ih, loopStep_spawnFunc]

/-- C9 (counterexample): the claim says the shared queue receives *exactly*
`"ping 5", "pong 4", "ping 3", "pong 2", "ping 1"`.  In the code, `pong`
puts `'pong %d' % i` on the queue *before* testing `i == 0`, so the run also
emits `"pong 0"` before terminating: the output is a six-element sequence,
not the claimed five-element one. -/
theorem c9_chain_counterexample :
    pingPongFinal.outputs
        = ["ping 5", "pong 4", "ping 3", "pong 2", "ping 1", "pong 0"] ∧
    pingPongFinal.outputs
        ≠ ["ping 5", "pong 4", "ping 3", "pong 2", "ping 1"] := by
  decide

/-- C9 (amended): started as `ping(q, 5)`, the actor writes
`"ping 5", "pong 4", "ping 3", "pong 2", "ping 1", "pong 0"` to the shared
queue, terminates normally once the counter reaches 0, and a monitor on the
actor observes `(ping, None)` (the spawn-time behaviour with no exception). -/
theorem c9_chain_amended :
    pingPongFinal.outputs
        = ["ping 5", "pong 4", "ping 3", "pong 2", "ping 1", "pong 0"] ∧
    pingPongFinal.status = ProcStatus.deadNormal ∧
    pingPongFinal.mailbox = [] ∧
    monitorObservation pingPongFinal = some (PP.ping, none) := by
  decide

/-- C10: a monitor callback registered via the Monitor token is invoked as
`mon(func, dead_proc.exception)` where `func` is the *spawn-time* behaviour
captured by the `address` closure — never the loop's current behaviour.
Formally: the observation's first component is always `spawnFunc`; the loop
never rewrites `spawnFunc`; and in the ping/pong run the monitor observes
`ping` even though the behaviour that processed the final message (and thus
the loop's current behaviour at death) is `pong`. -/
theorem c10_monitor_reports_spawn_behavior :
    (∀ (st : ActorState β),
      (monitorObservation st).map Prod.fst
        = (monitorObservation st).map (fun _ => st.spawnFunc)) ∧
    (∀ (sem : BehaviorSem β) (a : Arg) (n : Nat) (st : ActorState β),
      (runLoop sem a n st).spawnFunc = st.spawnFunc) ∧
    pingPongFinal.nextFunc = PP.pong ∧
    pingPongFinal.nextFunc ≠ pingPongFinal.spawnFunc ∧
    monitorObservation pingPongFinal = some (PP.ping, none) := by
  refine ⟨?_, ?_, by decide, by decide, by decide⟩
  · intro st
    cases h : st.status <;> simp [monitorObservation, h]
  · intro sem a n st
    exact runLoop_spawnFunc sem a n st

/-- C3 (counterexample): the claim says that on an argument-shape mismatch
with `retries < 8` *the same message* is re-enqueued with counter
`retries+1`.  But line 97-98 re-binds the local `args` to
`(address,) + args` before the call, and line 106 re-enqueues that re-bound
`args`: for a self-aware behaviour the re-enqueued message has the actor's
own address prepended, so it is not the dequeued message. -/
theorem c3_retry_counterexample :
    (loopStep mismatchSem (Arg.datum (Datum.addr 3)) mismatchState).mailbox
      = [(1, [Arg.datum (Datum.addr 3), Arg.datum (Datum.nat 7)], Kw.empty)] ∧
    (loopStep mismatchSem (Arg.datum (Datum.addr 3)) mismatchState).mailbox
      ≠ [(1, [Arg.datum (Datum.nat 7)], Kw.empty)] := by
  decide

/-- C3 (amended): on an argument-shape mismatch (`TypeError`) for a dequeued
message `(retries, args, kwargs)`, with `argsI` the argument list as the
behaviour was invoked (the self-address prepended when the current behaviour
is self-aware): the behaviour, the running status, the outputs and — when
retrying — the dropped-message log are unchanged and no error is surfaced;
if `retries < 8` and the mailbox has room, `(retries+1, argsI, kwargs)` is
re-enqueued at the back; if `retries >= 8` the message is dropped and
recorded in the log. -/
theorem c3_retry_amended (sem : BehaviorSem β) (selfAddr : Arg)
    (st : ActorState β) (retries : Nat) (args0 : List Arg) (kw : Kw) (rest : List Msg)
    (hrun : st.status = ProcStatus.running)
    (hmb : st.mailbox = (retries, args0, kw) :: rest)
    (hcall : sem.call st.nextFunc
        (if sem.withSelf st.nextFunc then selfAddr :: args0 else args0) kw
      = { res := CallRes.typeErr, outputs := [], selfSends := [] }) :
    (loopStep sem selfAddr st).nextFunc = st.nextFunc ∧
    (loopStep sem selfAddr st).status = ProcStatus.running ∧
    (loopStep sem selfAddr st).outputs = st.outputs ∧
    (retries < 8 → rest.length < MAX_QUEUE_SIZE →
      (loopStep sem selfAddr st).mailbox
          = rest ++ [(retries + 1,
              (if sem.withSelf st.nextFunc then selfAddr :: args0 else args0), kw)] ∧
      (loopStep sem selfAddr st).droppedLog = st.droppedLog) ∧
    (8 ≤ retries →
      (loopStep sem selfAddr st).mailbox = rest ∧
      (loopStep sem selfAddr st).droppedLog
          = st.droppedLog ++ [(retries,
              (if sem.withSelf st.nextFunc then selfAddr :: args0 else args0), kw)]) := by
  obtain ⟨sf, nf, mb, stt, mons, ctl, outs, dl⟩ := st
  dsimp only at hrun hmb hcall ⊢
  subst hrun hmb
  simp only [loopStep, hcall, enqueueSends, enqueueOne]
  refine ⟨?_, ?_, ?_, ?_, ?_⟩
  · split <;> rfl
  · split <;> rfl
  · split <;> simp
  · intro h8 hroom
    rw [if_pos h8, if_pos hroom]
    exact ⟨rfl, rfl⟩
  · intro h8
    rw [if_neg (by omega)]
    exact ⟨rfl, rfl⟩

/-- C3 (witness): the amended theorem applied to the concrete mismatch
actor: one message `(0, [7], {})`, self-aware always-mismatching behaviour. -/
theorem c3_retry_amended_witness :
    (loopStep mismatchSem (Arg.datum (Datum.addr 3)) mismatchState).mailbox
      = [] ++ [(1, [Arg.datum (Datum.addr 3), Arg.datum (Datum.nat 7)], Kw.empty)] ∧
    (loopStep mismatchSem (Arg.datum (Datum.addr 3)) mismatchState).droppedLog
      = mismatchState.droppedLog :=
  (c3_retry_amended mismatchSem (Arg.datum (Datum.addr 3)) mismatchState 0
      [Arg.datum (Datum.nat 7)] Kw.empty [] (by decide) (by decide) (by decide)).2.2.2.1
    (by decide) (by decide)

/-- C4: a plain send `Address(*args, **kwargs)` (no control token among the
positional arguments) appends `(0, args, kwargs)` to the bounded mailbox
(capacity `MAX_QUEUE_SIZE = 1024`) leaving everything else unchanged, and
returns the address; if the mailbox is full it raises `UndeliveredMessage`
to the caller and leaves the target actor's state entirely unchanged. -/
theorem c4_plain_send (st : ActorState β) (args : List Arg) (kw : Kw)
    (hplain : ∀ t : Token, Arg.token t ∉ args) :
    MAX_QUEUE_SIZE = 1024 ∧
    (st.mailbox.length < MAX_QUEUE_SIZE →
      addressCall st args kw
        = (AddrResult.retAddress, { st with mailbox := st.mailbox ++ [(0, args, kw)] })) ∧
    (¬ st.mailbox.length < MAX_QUEUE_SIZE →
      addressCall st args kw = (AddrResult.raiseUndeliveredMessage, st)) := by
  refine ⟨rfl, ?_, ?_⟩ <;> intro h <;>
    simp only [addressCall, if_neg (hplain Token.Monitor), if_neg (hplain Token.Link),
      if_neg (hplain Token.TrapLink), if_neg (hplain Token.ActorInfo),
      if_neg (hplain Token.KillerJoke)]
  · rw [if_pos h]
  · rw [if_neg h]

/-- C4 (witness): the theorem at a concrete running actor with three queued
messages (room available) — the send appends and returns the address. -/
theorem c4_plain_send_witness :
    addressCall runningState [Arg.datum (Datum.str "m")] Kw.empty
      = (AddrResult.retAddress,
         { runningState with
             mailbox := runningState.mailbox ++ [(0, [Arg.datum (Datum.str "m")], Kw.empty)] }) :=
  ((c4_plain_send runningState [Arg.datum (Datum.str "m")] Kw.empty
      (by intro t; cases t <;> decide)).2.1) (by decide)

/-- C6 (counterexample): the claim says sending through an Address after the
actor has terminated never raises and leaves all observable state unchanged.
Both parts fail: the dead actor's mailbox is no longer drained, so a send
still appends to it (changing the `mailbox_size` that `actor_info` reports),
and once the undrained mailbox is full a further send raises
`UndeliveredMessage`. -/
theorem c6_dead_letter_counterexample :
    (addressCall deadFullState [Arg.datum (Datum.nat 5)] Kw.empty).1
      = AddrResult.raiseUndeliveredMessage ∧
    (addressCall deadEmptyState [Arg.datum (Datum.nat 5)] Kw.empty).2
      ≠ deadEmptyState ∧
    (mkInfo (addressCall deadEmptyState [Arg.datum (Datum.nat 5)] Kw.empty).2).mailbox_size
      ≠ (mkInfo deadEmptyState).mailbox_size := by
  refine ⟨?_, by decide, by decide⟩
  have hfull : ¬ deadFullState.mailbox.length < MAX_QUEUE_SIZE := by
    simp [deadFullState]
  simp only [addressCall, hfull]
  decide

/-- C6 (amended): sending plain data through an Address after the actor has
terminated never raises *as long as the mailbox has room*: the message is
appended as a dead letter (never processed — the dead loop takes no step),
the actor is not restarted, and the call returns the address; if the
undrained mailbox is full, the send raises `UndeliveredMessage` exactly as
for a live actor, leaving the state unchanged. -/
theorem c6_dead_letter_amended (st : ActorState β) (args : List Arg) (kw : Kw)
    (hdead : st.status ≠ ProcStatus.running)
    (hplain : ∀ t : Token, Arg.token t ∉ args) :
    ((addressCall st args kw).2.status = st.status) ∧
    (st.mailbox.length < MAX_QUEUE_SIZE →
      addressCall st args kw
        = (AddrResult.retAddress, { st with mailbox := st.mailbox ++ [(0, args, kw)] })) ∧
    (¬ st.mailbox.length < MAX_QUEUE_SIZE →
      addressCall st args kw = (AddrResult.raiseUndeliveredMessage, st)) ∧
    (∀ (sem : BehaviorSem β) (a : Arg) (n : Nat),
      runLoop sem a n (addressCall st args kw).2 = (addressCall st args kw).2) := by
  have hchain : addressCall st args kw
      = (if st.mailbox.length < MAX_QUEUE_SIZE then
          (AddrResult.retAddress, { st with mailbox := st.mailbox ++ [(0, args, kw)] })
         else (AddrResult.raiseUndeliveredMessage, st)) := by
    simp only [addressCall, if_neg (hplain Token.Monitor), if_neg (hplain Token.Link),
      if_neg (hplain Token.TrapLink), if_neg (hplain Token.ActorInfo),
      if_neg (hplain Token.KillerJoke)]
  rw [hchain]
  by_cases h : st.mailbox.length < MAX_QUEUE_SIZE
  · rw [if_pos h]
    exact ⟨rfl, fun _ => rfl, fun hc => absurd h hc,
      fun sem a n => runLoop_dead sem a n _ hdead⟩
  · rw [if_neg h]
    exact ⟨rfl, fun hc => absurd hc h, fun _ => rfl,
      fun sem a n => runLoop_dead sem a n _ hdead⟩

/-- C6 (witness): the amended theorem at the concrete dead actor with an
empty mailbox — the send appends a dead letter and returns the address. -/
theorem c6_dead_letter_amended_witness :
    addressCall deadEmptyState [Arg.datum (Datum.nat 5)] Kw.empty
      = (AddrResult.retAddress,
         { deadEmptyState with mailbox := [(0, [Arg.datum (Datum.nat 5)], Kw.empty)] }) :=
  ((c6_dead_letter_amended deadEmptyState [Arg.datum (Datum.nat 5)] Kw.empty
      (by decide) (by intro t; cases t <;> decide)).2.1) (by decide)

/-- C8: the `address` dispatcher handles at most one control token per call,
selected by the fixed precedence Monitor, Link, TrapLink, ActorInfo,
KillerJoke, else plain send: the source's `if/elif` chain (`addressCall`)
coincides with the spec-side dispatcher (`dispatchSpec`) driven by
`selectBranch`; and a call returns the info snapshot exactly when the
ActorInfo branch is the selected one — every other non-raising call returns
the address itself. -/
theorem c8_dispatch_precedence (st : ActorState β) (args : List Arg) (kw : Kw) :
    addressCall st args kw = dispatchSpec st args kw ∧
    (∀ info, (addressCall st args kw).1 = AddrResult.retInfo info ↔
       (selectBranch args = Branch.actorInfoB ∧ info = mkInfo st)) ∧
    ((addressCall st args kw).1 = AddrResult.retAddress ∨
     (addressCall st args kw).1 = AddrResult.retInfo (mkInfo st) ∨
     (addressCall st args kw).1 = AddrResult.raiseUndeliveredMessage ∨
     (addressCall st args kw).1 = AddrResult.raiseKeyError) := by
  refine ⟨?_, ?_, ?_⟩
  · simp only [addressCall, dispatchSpec, selectBranch]
    split_ifs <;> rfl
  · intro info
    simp only [addressCall, selectBranch]
    split_ifs <;> (try cases kw.monitor) <;> simp [eq_comm]
  · simp only [addressCall]
    split_ifs <;> (try cases kw.monitor) <;> simp

/-- C5: for a running actor, `kill` (the KillerJoke token) returns the
address, makes the greenlet die with `Killed` (so `actor_info` reports
`running = False`, `successful = False` and the exception `Killed`), leaves
the queued messages unprocessed, and the dead loop never takes another
step — no further mailbox message is ever processed. -/
theorem c5_kill_semantics (st : ActorState β)
    (hrun : st.status = ProcStatus.running) :
    (kill st).1 = AddrResult.retAddress ∧
    (kill st).2.status = ProcStatus.deadExc Exc.Killed ∧
    (kill st).2.mailbox = st.mailbox ∧
    (mkInfo (kill st).2).running = false ∧
    (mkInfo (kill st).2).successful = false ∧
    (mkInfo (kill st).2).exception = some Exc.Killed ∧
    Exc.isKilled Exc.Killed = true ∧
    (∀ (sem : BehaviorSem β) (a : Arg) (n : Nat),
      runLoop sem a n (kill st).2 = (kill st).2) := by
  have hk : kill st = (AddrResult.retAddress,
      { st with status := ProcStatus.deadExc Exc.Killed }) := by
    simp [kill, addressCall, procKill, hrun]
  rw [hk]
  refine ⟨rfl, rfl, rfl, rfl, rfl, rfl, rfl, ?_⟩
  intro sem a n
  exact runLoop_dead sem a n _ (by simp)

/-- C5 (witness): killing the concrete running actor with three queued
messages: the call returns the address and the info snapshot reports
`running = False`, `successful = False`, exception `Killed`. -/
theorem c5_kill_semantics_witness :
    (kill runningState).1 = AddrResult.retAddress ∧
    (mkInfo (kill runningState).2).running = false ∧
    (mkInfo (kill runningState).2).successful = false ∧
    (mkInfo (kill runningState).2).exception = some Exc.Killed :=
  let h := c5_kill_semantics runningState (by decide)
  ⟨h.1, h.2.2.2.1, h.2.2.2.2.1, h.2.2.2.2.2.1⟩

/-- C1: for a linked pair — `B`'s behaviour called `link` on `A`'s address
(the Link branch, actors.py lines 131-134), or equivalently `A` was spawned
with `spawn_link` from `B` (lines 176-183), which sends the same Link token
before the first message — with both running and no other links installed:
if either side terminates with an exception, the other is forcibly killed
with `KilledByLink`; if either side terminates normally, the other is
entirely unaffected (it keeps running; no callback fires). -/
theorem c1_link_fate_sharing (w : LWorld) (a b : Nat) (e : Exc) (hab : a ≠ b)
    (ha : w.status a = ProcStatus.running) (hb : w.status b = ProcStatus.running)
    (hla : w.linkExc a = []) (hlb : w.linkExc b = []) :
    ((terminate 4 (establishLink w b a) a (some e)).status a = ProcStatus.deadExc e ∧
     (terminate 4 (establishLink w b a) a (some e)).status b
        = ProcStatus.deadExc Exc.KilledByLink) ∧
    ((terminate 4 (establishLink w b a) b (some e)).status b = ProcStatus.deadExc e ∧
     (terminate 4 (establishLink w b a) b (some e)).status a
        = ProcStatus.deadExc Exc.KilledByLink) ∧
    ((terminate 4 (establishLink w b a) a none).status a = ProcStatus.deadNormal ∧
     (terminate 4 (establishLink w b a) a none).status b = ProcStatus.running ∧
     (terminate 4 (establishLink w b a) a none).mailbox = w.mailbox ∧
     (terminate 4 (establishLink w b a) a none).linkExc
        = (establishLink w b a).linkExc) ∧
    ((terminate 4 (establishLink w b a) b none).status b = ProcStatus.deadNormal ∧
     (terminate 4 (establishLink w b a) b none).status a = ProcStatus.running ∧
     (terminate 4 (establishLink w b a) b none).mailbox = w.mailbox) := by
  have hba : b ≠ a := Ne.symm hab
  simp only [terminate, establishLink, addCb, setStatus, runCbs, hla, hlb, ha, hb, hab, hba,
    List.map, List.append, List.nil_append, if_pos, if_neg, if_true, if_false]
  simp [hab, hba]

/-- C1 (witness): actors 0 and 1 of `twoProcWorld`, linked by 1 on 0's
address; killing 0 abnormally kills 1 with `KilledByLink`, while 0 ending
normally leaves 1 running. -/
theorem c1_link_fate_sharing_witness :
    (terminate 4 (establishLink twoProcWorld 1 0) 0 (some Exc.Killed)).status 1
      = ProcStatus.deadExc Exc.KilledByLink ∧
    (terminate 4 (establishLink twoProcWorld 1 0) 0 none).status 1
      = ProcStatus.running :=
  let h := c1_link_fate_sharing twoProcWorld 0 1 Exc.Killed (by decide) rfl rfl rfl rfl
  ⟨h.1.2, h.2.2.1.2.1⟩

/-- C2 (counterexample): the claim says that when the trap-linked actor `T`
terminates abnormally, the trapping caller `S` *receives into its mailbox*
`trap_exit=(T_address, exception)`.  But the trap callback delivers through
`me._address(...)`, i.e. `put_nowait` on `S`'s bounded mailbox: when `S`'s
mailbox is full the message is lost (the `UndeliveredMessage` dies inside
the callback context).  Concretely, with `S = 1` trap-linking `T = 0` and
`S`'s mailbox full, `T` raising leaves `S`'s mailbox without any trap
message. -/
theorem c2_trap_link_counterexample :
    (terminate 4 c2FullWorld 0 (some (Exc.userExc 7))).mailbox 1
      = List.replicate MAX_QUEUE_SIZE (9, Exc.Killed) ∧
    (0, Exc.userExc 7) ∉ (terminate 4 c2FullWorld 0 (some (Exc.userExc 7))).mailbox 1 ∧
    (terminate 4 c2FullWorld 0 (some (Exc.userExc 7))).status 1 = ProcStatus.running := by
  decide

/-- C2 (amended): for a trap-linked pair — caller `S` sent the TrapLink
token to `T`'s address (actors.py lines 135-138, or `spawn_trap_link`,
lines 186-197), both running, no other links, and `S`'s mailbox not full:
if `S` terminates abnormally, `T` is forcibly killed with `KilledByLink`;
if `T` terminates abnormally, `S` is not killed — it stays running and the
message `trap_exit=(T_address, exception)` is appended to its mailbox
(when `S`'s mailbox is full that message is lost instead). -/
theorem c2_trap_link_amended (w : LWorld) (s t : Nat) (e : Exc) (hst : s ≠ t)
    (hs : w.status s = ProcStatus.running) (ht : w.status t = ProcStatus.running)
    (hls : w.linkExc s = []) (hlt : w.linkExc t = [])
    (hroom : (w.mailbox s).length < MAX_QUEUE_SIZE) :
    ((terminate 4 (establishTrapLink w s t) s (some e)).status s
        = ProcStatus.deadExc e ∧
     (terminate 4 (establishTrapLink w s t) s (some e)).status t
        = ProcStatus.deadExc Exc.KilledByLink) ∧
    ((terminate 4 (establishTrapLink w s t) t (some e)).status s
        = ProcStatus.running ∧
     (terminate 4 (establishTrapLink w s t) t (some e)).status t
        = ProcStatus.deadExc e ∧
     (terminate 4 (establishTrapLink w s t) t (some e)).mailbox s
        = w.mailbox s ++ [(t, e)]) := by
  have hts : t ≠ s := Ne.symm hst
  simp only [terminate, establishTrapLink, addCb, setStatus, runCbs, hls, hlt, hs, ht, hst, hts,
    hroom, List.map, List.append, List.nil_append, if_pos, if_neg, if_true, if_false]
  simp [hst, hts, hroom]

/-- C2 (witness): actors 1 (trapping caller) and 0 in `twoProcWorld`:
0 raising leaves 1 running with `trap_exit=(0, exc)` in its mailbox. -/
theorem c2_trap_link_amended_witness :
    (terminate 4 (establishTrapLink twoProcWorld 1 0) 0 (some (Exc.userExc 7))).status 1
      = ProcStatus.running ∧
    (terminate 4 (establishTrapLink twoProcWorld 1 0) 0 (some (Exc.userExc 7))).mailbox 1
      = [(0, Exc.userExc 7)] :=
  let h := c2_trap_link_amended twoProcWorld 1 0 (Exc.userExc 7) (by decide)
      rfl rfl rfl rfl (by decide)
  ⟨h.2.1, h.2.2.2⟩

/-- C7: `register(name, addr)` raises a duplicate-name `KeyError` when
`name` is already bound, mutating nothing (the check precedes both the
monitor installation and the binding, actors.py lines 290-294); otherwise
it binds `name` to `addr` and installs the `remove_when_done` monitor, so
that when the owning actor terminates the binding is removed and
`whereis name` is absent (`None`) again. -/
theorem c7_register_semantics (w : RegWorld) (name : String) (addr : Nat) :
    ((whereis w name).isSome → register w name addr = Except.error "already registered") ∧
    (whereis w name = none →
      register w name addr
          = Except.ok { registry := w.registry ++ [(name, addr)]
                        monRemovals := w.monRemovals ++ [(addr, name)] } ∧
      whereis { registry := w.registry ++ [(name, addr)]
                monRemovals := w.monRemovals ++ [(addr, name)] } name = some addr ∧
      whereis (regTerminate { registry := w.registry ++ [(name, addr)]
                              monRemovals := w.monRemovals ++ [(addr, name)] } addr) name
          = none) := by
  constructor
  · intro h
    obtain ⟨x, hx⟩ := Option.isSome_iff_exists.mp h
    obtain ⟨y, hy, hxy⟩ := Option.map_eq_some'.mp hx
    have hpy := List.find?_some hy
    rw [register, if_pos]
    exact List.any_eq_true.mpr ⟨y, List.mem_of_find?_eq_some hy, by simpa using hpy⟩
  · intro h
    have hfind : w.registry.find? (fun p => p.1 == name) = none :=
      Option.map_eq_none'.mp h
    have hany : w.registry.any (fun p => p.1 == name) = false := by
      rw [List.any_eq_false]
      intro x hxmem
      simpa using List.find?_eq_none.mp hfind x hxmem
    refine ⟨?_, ?_, ?_⟩
    · rw [register, if_neg (by simp [hany])]
    · rw [whereis, List.find?_append, hfind]
      simp [List.find?]
    · rw [whereis, Option.map_eq_none']
      rw [List.find?_eq_none]
      intro x hxmem
      simp only [regTerminate] at hxmem
      obtain ⟨hxorig, hxpred⟩ := List.mem_filter.mp hxmem
      intro hxname
      have hname : x.1 = name := by simpa using hxname
      have hanyT : (w.monRemovals ++ [(addr, name)]).any
          (fun m => m.1 == addr && m.2 == x.1) = true := by
        refine List.any_eq_true.mpr ⟨(addr, name), ?_, ?_⟩
        · simp
        · simp [hname]
      rw [hanyT] at hxpred
      simp at hxpred

/-- C7 (witness): in `regWorld0` (where `"sensor"` is bound to actor 4),
re-registering `"sensor"` fails, while registering the fresh name `"pump"`
to actor 7 succeeds, resolves, and is gone after actor 7 terminates. -/
theorem c7_register_semantics_witness :
    register regWorld0 "sensor" 9 = Except.error "already registered" ∧
    (whereis { registry := regWorld0.registry ++ [("pump", 7)]
               monRemovals := regWorld0.monRemovals ++ [(7, "pump")] } "pump" = some 7 ∧
     whereis (regTerminate { registry := regWorld0.registry ++ [("pump", 7)]
                             monRemovals := regWorld0.monRemovals ++ [(7, "pump")] } 7) "pump"
        = none) :=
  ⟨(c7_register_semantics regWorld0 "sensor" 9).1 (by decide),
   ⟨((c7_register_semantics regWorld0 "pump" 7).2 (by decide)).2.1,
    ((c7_register_semantics regWorld0 "pump" 7).2 (by decide)).2.2⟩⟩
